import Mathlib

/-!
# Verification of the Rimac appointment-booking pipeline

Shallow embedding of the appointment lifecycle saga:
Intake (`createAppointment`), the status state machine
(`validateStatusTransition`), the country processor
(`processAppointment`), the reconciler (`handleSQSRecord` /
`updateAppointmentStatus`), and the SQS/SNS message parser
(`parseAppointmentEvent`), translated from the TypeScript sources
(`appointment.service.ts`, `appointment.repository.ts`,
`appointment-processor.service.ts`, `appointment.handler.ts`,
`appointment-pe.handler.ts`).

Stores are modelled as association lists, fallible calls as `Except`
or as result/state pairs, and the fault points the claims mention
(conflict-query failure, RDS-insert failure) as explicit booleans.
-/

deriving instance DecidableEq for Except

namespace Rimac

/-- `AppointmentStatus` enum from `appointment.types.ts`
(values `pending | processing | completed | failed`). -/
inductive AppointmentStatus where
  | pending
  | processing
  | completed
  | failed
deriving DecidableEq, Repr

/-- `CountryISO` enum from `appointment.types.ts` (values `PE | CL`). -/
inductive CountryISO where
  | PE
  | CL
deriving DecidableEq, Repr

/-- Error taxonomy of `appointment.types.ts`: `ValidationError`,
`ConflictError`, `NotFoundError` and the generic `AppointmentError`,
each carrying its message. -/
inductive AppErr where
  | validation (msg : String)
  | conflict (msg : String)
  | notFound (msg : String)
  | appointment (msg : String) (code : String)
deriving DecidableEq, Repr

/-- The `Appointment` record of the Primary Store (DynamoDB). -/
structure Appointment where
  id : String
  insuredId : String
  scheduleId : Nat
  countryISO : CountryISO
  status : AppointmentStatus
  createdAt : String
  updatedAt : String
deriving DecidableEq, Repr

/-- Primary Store: the DynamoDB `appointments` table, keyed by `id`. -/
abbrev PrimaryStore := List Appointment

/-- The validated create request (`AppointmentRequest`). -/
structure AppointmentRequest where
  insuredId : String
  scheduleId : Nat
  countryISO : CountryISO
deriving DecidableEq, Repr

/-- `AppointmentCreatedEvent` from `appointment.types.ts`. -/
structure AppointmentCreatedEvent where
  appointmentId : String
  insuredId : String
  scheduleId : Nat
  countryISO : CountryISO
  createdAt : String
deriving DecidableEq, Repr

/-- `AppointmentConfirmedEvent` from `appointment.types.ts`. -/
structure AppointmentConfirmedEvent where
  appointmentId : String
  countryISO : CountryISO
  status : AppointmentStatus
  confirmedAt : String
deriving DecidableEq, Repr

/-- The `validTransitions` table of
`AppointmentService.validateStatusTransition`
(`appointment.service.ts`, lines 315-320). -/
def validTransitions : AppointmentStatus → List AppointmentStatus
  | .pending => [.processing, .failed]
  | .processing => [.completed, .failed]
  | .completed => [] -- Estado final
  | .failed => [] -- Estado final

/-- String value of each status (enum values of `appointment.types.ts`,
as stored in DynamoDB and used in error messages). -/
def statusName : AppointmentStatus → String
  | .pending => "pending"
  | .processing => "processing"
  | .completed => "completed"
  | .failed => "failed"

/-- `AppointmentService.validateStatusTransition`
(`appointment.service.ts`, lines 314-328): throws `ValidationError`
when `newStatus` is not in `validTransitions[currentStatus]`. -/
def validateStatusTransition (currentStatus newStatus : AppointmentStatus) :
    Except AppErr Unit :=
  if newStatus ∈ validTransitions currentStatus then
    Except.ok ()
  else
    Except.error (AppErr.validation
      ("Transicion de estado invalida: " ++ statusName currentStatus
        ++ " -> " ++ statusName newStatus))

/-- Joi pattern of `validation.service.ts`: `insuredId` must match
the regular expression of exactly five decimal digits. -/
def isFiveDigitId (s : String) : Bool :=
  s.length = 5 && s.toList.all Char.isDigit

/-- Value constraints of `ValidationService.validateAppointmentRequest`
(`validation.service.ts`, lines 49-61) on an already-shaped request:
`insuredId` five digits, `scheduleId` a positive integer, `countryISO`
in enum PE/CL (guaranteed here by the `CountryISO` type). -/
def isValidRequestShape (req : AppointmentRequest) : Bool :=
  isFiveDigitId req.insuredId && decide (1 ≤ req.scheduleId)

/-- `ValidationService.validateAppointmentRequest`: returns the
validated request or throws `ValidationError`. -/
def validateAppointmentRequest (req : AppointmentRequest) :
    Except AppErr AppointmentRequest :=
  if isValidRequestShape req then
    Except.ok req
  else
    Except.error (AppErr.validation "Datos de solicitud invalidos")

/-- Payload `data` of a successful `AppointmentResponse`. -/
structure AppointmentResponseData where
  appointmentId : String
  status : AppointmentStatus
deriving DecidableEq, Repr

/-- `AppointmentResponse` of `appointment.types.ts`:
`{success, message, data?, error?}`. -/
structure AppointmentResponse where
  success : Bool
  message : String
  data : Option AppointmentResponseData
  error : Option String
deriving DecidableEq, Repr

/-- `AppointmentService.handleError` (`appointment.service.ts`,
lines 232-264): translates the error taxonomy into a structured
response (dispatch on `ValidationError`, `ConflictError`, then any
`AppointmentError`; `NotFoundError` extends `AppointmentError` so it
lands in the generic branch). -/
def handleError : AppErr → AppointmentResponse
  | .validation msg =>
      { success := false, message := "Datos de solicitud invalidos",
        data := none, error := some msg }
  | .conflict msg =>
      { success := false, message := "Conflicto en la solicitud",
        data := none, error := some msg }
  | .notFound msg =>
      { success := false, message := "Error en el procesamiento",
        data := none, error := some msg }
  | .appointment msg _ =>
      { success := false, message := "Error en el procesamiento",
        data := none, error := some msg }

/-- `AppointmentService.buildSuccessResponse` (`appointment.service.ts`,
lines 216-225). -/
def buildSuccessResponse (appointment : Appointment) : AppointmentResponse :=
  { success := true,
    message := "El agendamiento esta en proceso",
    data := some { appointmentId := appointment.id, status := appointment.status },
    error := none }

/-- `AppointmentRepository.hasConflictingAppointment`
(`appointment.repository.ts`, lines 206-228): a DynamoDB `ScanCommand`
with a `FilterExpression` matching the same `scheduleId` and status
`pending` or `processing`, and `Limit: 1`. DynamoDB applies `Limit`
before the filter — it bounds the items *evaluated*, not the matches —
and the code does not paginate, so exactly the first item of the table
(in scan order, here the list order) is evaluated and filtered.
When the query itself throws, the catch block returns `false`
(fail-safe), modelled by the `queryFails` flag. -/
def hasConflictingAppointment (store : PrimaryStore) (scheduleId : Nat)
    (queryFails : Bool) : Bool :=
  if queryFails then
    false
  else
    (store.take 1).any fun a =>
      a.scheduleId = scheduleId &&
        (a.status = AppointmentStatus.pending ||
          a.status = AppointmentStatus.processing)

/-- Create-pipeline of `AppointmentService.createAppointment`
(`appointment.service.ts`, lines 42-65) with the conflict-check result
passed in: validate, check conflicts, insert (fresh uuid `freshId`,
`PutCommand` with `attribute_not_exists(id)` on a fresh id modelled as
an append), publish `AppointmentCreatedEvent`, build the success
response; any thrown error is caught and mapped by `handleError`.
`putFails` / `publishFails` model the DynamoDB write and the SNS
publish throwing. The optional `scheduleService` is absent in the
handler wiring (`appointment.handler.ts`, lines 26-40), so
`checkScheduleAvailability` is a no-op. Returns the response, the
resulting Primary Store and the emitted events. -/
def createAppointmentCore (store : PrimaryStore) (req : AppointmentRequest)
    (freshId now : String) (conflictFound putFails publishFails : Bool) :
    AppointmentResponse × PrimaryStore × List AppointmentCreatedEvent :=
  match validateAppointmentRequest req with
  | .error e => (handleError e, store, [])
  | .ok vreq =>
    if conflictFound then
      (handleError (AppErr.conflict
        ("Ya existe una cita para el horario " ++ toString vreq.scheduleId)),
        store, [])
    else if putFails then
      (handleError (AppErr.appointment "Error al crear la cita" "CREATE_ERROR"),
        store, [])
    else
      let appointment : Appointment :=
        { id := freshId, insuredId := vreq.insuredId,
          scheduleId := vreq.scheduleId, countryISO := vreq.countryISO,
          status := AppointmentStatus.pending,
          createdAt := now, updatedAt := now }
      if publishFails then
        (handleError (AppErr.appointment
          "Error al publicar evento de cita creada" "SNS_PUBLISH_ERROR"),
          store ++ [appointment], [])
      else
        (buildSuccessResponse appointment, store ++ [appointment],
          [{ appointmentId := appointment.id,
             insuredId := appointment.insuredId,
             scheduleId := appointment.scheduleId,
             countryISO := appointment.countryISO,
             createdAt := appointment.createdAt }])

/-- `AppointmentService.createAppointment` with the conflict check
performed against the store (the `queryFails` fault point is
`hasConflictingAppointment` throwing). -/
def createAppointment (store : PrimaryStore) (req : AppointmentRequest)
    (freshId now : String) (conflictQueryFails putFails publishFails : Bool) :
    AppointmentResponse × PrimaryStore × List AppointmentCreatedEvent :=
  createAppointmentCore store req freshId now
    (hasConflictingAppointment store req.scheduleId conflictQueryFails)
    putFails publishFails

/-- HTTP response of the Lambda handler (status code plus structured
JSON body). -/
structure HttpResponse where
  statusCode : Nat
  body : AppointmentResponse
deriving DecidableEq, Repr

/-- `handleCreateAppointment` (`appointment.handler.ts`, lines
126-153), after the body-present and JSON-parse guards: calls
`service.createAppointment` and maps the result with
`statusCode = result.success ? 201 : 400`. -/
def handleCreateAppointment (store : PrimaryStore) (req : AppointmentRequest)
    (freshId now : String) (conflictQueryFails putFails publishFails : Bool) :
    HttpResponse × PrimaryStore × List AppointmentCreatedEvent :=
  let r := createAppointment store req freshId now
    conflictQueryFails putFails publishFails
  ({ statusCode := if r.1.success then 201 else 400, body := r.1 },
    r.2.1, r.2.2)

/-- `AppointmentRepository.findById` (`appointment.repository.ts`,
lines 80-98): `GetCommand` on the key, `null` when absent. -/
def findById (store : PrimaryStore) (id : String) : Option Appointment :=
  store.find? fun a => a.id = id

/-- `AppointmentRepository.updateStatus` (`appointment.repository.ts`,
lines 135-164): `UpdateCommand` setting `status` and `updatedAt` on the
record with the given id. -/
def repoUpdateStatus (store : PrimaryStore) (id : String)
    (status : AppointmentStatus) (now : String) : PrimaryStore :=
  store.map fun a =>
    if a.id = id then { a with status := status, updatedAt := now } else a

/-- `AppointmentService.updateAppointmentStatus`
(`appointment.service.ts`, lines 109-129): find the appointment (throw
`NotFoundError` when absent), validate the status transition (throw
`ValidationError` when outside the table), then apply the repository
update. Returns the thrown error or unit, paired with the store after
whatever writes happened before the throw (none, in both error cases). -/
def updateAppointmentStatus (store : PrimaryStore) (appointmentId : String)
    (status : AppointmentStatus) (now : String) :
    Except AppErr Unit × PrimaryStore :=
  match findById store appointmentId with
  | none =>
      (Except.error (AppErr.notFound
        ("Cita con ID " ++ appointmentId ++ " no encontrada")), store)
  | some existingAppointment =>
      match validateStatusTransition existingAppointment.status status with
      | .error e => (Except.error e, store)
      | .ok _ => (Except.ok (), repoUpdateStatus store appointmentId status now)

/-- Reconciler step of `handleSQSMessages` (`appointment.handler.ts`,
lines 189-234) for one confirmation record: after parsing (and
unwrapping an EventBridge `detail` envelope when present), it calls
`updateAppointmentStatus(event.appointmentId, AppointmentStatus.COMPLETED)`
regardless of the status carried by the event; an error makes the
record fail (rethrown towards the DLQ). -/
def handleConfirmationRecord (store : PrimaryStore)
    (confirmationEvent : AppointmentConfirmedEvent) (now : String) :
    Except AppErr Unit × PrimaryStore :=
  updateAppointmentStatus store confirmationEvent.appointmentId
    AppointmentStatus.completed now

/-- `ScheduleInfo` of `appointment-processor.service.ts`. -/
structure ScheduleInfo where
  centerId : Nat
  specialtyId : Nat
  medicId : Nat
  appointmentDate : String
deriving DecidableEq, Repr

/-- `BaseAppointmentProcessor.getScheduleInformation`
(`appointment-processor.service.ts`, lines 104-113): digit-grouping
decomposition of `scheduleId`; the JavaScript `Math.floor(x) || 1`
falls back to 1 when the quotient is 0, and `appointmentDate` is the
current timestamp (passed in as `now`). -/
def getScheduleInformation (scheduleId : Nat) (now : String) : ScheduleInfo :=
  { centerId := if scheduleId / 1000 = 0 then 1 else scheduleId / 1000,
    specialtyId :=
      if scheduleId % 1000 / 100 = 0 then 1 else scheduleId % 1000 / 100,
    medicId := if scheduleId % 100 / 10 = 0 then 1 else scheduleId % 100 / 10,
    appointmentDate := now }

/-- `AppointmentRDSEntity`: the `RegionalRecord` row of the per-country
MySQL `appointments` table (`appointment-rds.repository.ts`). -/
structure RegionalRecord where
  id : String
  insured_id : String
  schedule_id : Nat
  center_id : Nat
  specialty_id : Nat
  medic_id : Nat
  appointment_date : String
  status : AppointmentStatus
  created_at : String
  updated_at : String
deriving DecidableEq, Repr

/-- Regional Store of one country: the rows of its RDS table. -/
abbrev RegionalStore := List RegionalRecord

/-- `BaseAppointmentProcessor.validateEvent`
(`appointment-processor.service.ts`, lines 161-181): required fields
must be truthy (for strings: nonempty; for `scheduleId`: nonzero and
positive) and `countryISO` must match the processor country, else an
`AppointmentError` with code `VALIDATION_ERROR` is thrown. -/
def validateEvent (country : CountryISO) (event : AppointmentCreatedEvent) :
    Except AppErr Unit :=
  if event.appointmentId = "" then
    Except.error (AppErr.appointment "Appointment ID is required"
      "VALIDATION_ERROR")
  else if event.insuredId = "" then
    Except.error (AppErr.appointment "Insured ID is required"
      "VALIDATION_ERROR")
  else if event.scheduleId = 0 then
    Except.error (AppErr.appointment "Valid Schedule ID is required"
      "VALIDATION_ERROR")
  else if event.countryISO ≠ country then
    Except.error (AppErr.appointment "Country mismatch" "VALIDATION_ERROR")
  else
    Except.ok ()

/-- Entity built by `BaseAppointmentProcessor.createRDSRecord`
(`appointment-processor.service.ts`, lines 121-136) together with
`AppointmentRDSRepository.create`: a fresh uuid `freshId`, the event
fields, the derived schedule info, and status `PROCESSING`. -/
def rdsEntityOf (event : AppointmentCreatedEvent) (freshId now : String) :
    RegionalRecord :=
  let info := getScheduleInformation event.scheduleId now
  { id := freshId,
    insured_id := event.insuredId,
    schedule_id := event.scheduleId,
    center_id := info.centerId,
    specialty_id := info.specialtyId,
    medic_id := info.medicId,
    appointment_date := info.appointmentDate,
    status := AppointmentStatus.processing,
    created_at := now,
    updated_at := now }

/-- Event built by `BaseAppointmentProcessor.publishConfirmation`
(`appointment-processor.service.ts`, lines 143-155): always carries
status `COMPLETED`. -/
def confirmationEventOf (country : CountryISO)
    (event : AppointmentCreatedEvent) (now : String) :
    AppointmentConfirmedEvent :=
  { appointmentId := event.appointmentId,
    countryISO := country,
    status := AppointmentStatus.completed,
    confirmedAt := now }

/-- `BaseAppointmentProcessor.processAppointment`
(`appointment-processor.service.ts`, lines 45-81): validate the event,
run the country hook (a no-op in both `AppointmentProcessorPE` and
`AppointmentProcessorCL`), derive schedule info, insert the
RegionalRecord (the RDS insert throwing is the `insertFails` flag),
then publish the confirmation. Any throw aborts the run (the
best-effort error notification aside) and is re-raised. Returns the
outcome, the Regional Store after whatever writes happened, and the
emitted confirmation events. -/
def processAppointment (country : CountryISO) (rstore : RegionalStore)
    (event : AppointmentCreatedEvent) (freshId now : String)
    (insertFails : Bool) :
    Except AppErr Unit × RegionalStore × List AppointmentConfirmedEvent :=
  match validateEvent country event with
  | .error e => (Except.error e, rstore, [])
  | .ok _ =>
    if insertFails then
      (Except.error (AppErr.appointment
        "Error al crear la cita en RDS" "CREATE_RDS_ERROR"), rstore, [])
    else
      (Except.ok (), rstore ++ [rdsEntityOf event freshId now],
        [confirmationEventOf country event now])

/-- `validateCountryEvent` of the Peru queue handler
(`appointment-pe.handler.ts`, lines 159-185): country must be PE,
required fields truthy, and `insuredId` must match the five-digit
pattern. -/
def validateCountryEventPE (event : AppointmentCreatedEvent) :
    Except AppErr Unit :=
  if event.countryISO ≠ CountryISO.PE then
    Except.error (AppErr.appointment
      "Invalid country for Peru processor" "INVALID_COUNTRY")
  else if event.appointmentId = "" ∨ event.insuredId = "" ∨
      event.scheduleId = 0 then
    Except.error (AppErr.appointment
      "Missing required fields in Peru appointment event"
      "MISSING_REQUIRED_FIELDS")
  else if ¬ isFiveDigitId event.insuredId then
    Except.error (AppErr.appointment
      "Invalid Peruvian insured ID format" "INVALID_INSURED_ID_FORMAT")
  else
    Except.ok ()

/-- Per-record body of the Peru queue handler
(`appointment-pe.handler.ts`, lines 49-96), after the message parse:
handler-level country validation, then the PE processor run. -/
def runPEHandlerRecord (rstore : RegionalStore)
    (event : AppointmentCreatedEvent) (freshId now : String)
    (insertFails : Bool) :
    Except AppErr Unit × RegionalStore × List AppointmentConfirmedEvent :=
  match validateCountryEventPE event with
  | .error e => (Except.error e, rstore, [])
  | .ok _ => processAppointment CountryISO.PE rstore event freshId now insertFails

/-- JSON values, as produced by `JSON.parse` of a message body. -/
inductive Json where
  | null
  | bool (b : Bool)
  | num (n : Int)
  | str (s : String)
  | arr (elems : List Json)
  | obj (fields : List (String × Json))

/-- First binding of a key in a JSON object field list. -/
def lookupField : List (String × Json) → String → Option Json
  | [], _ => none
  | (k, v) :: rest, key => if k = key then some v else lookupField rest key

/-- Field access `value.key` on a parsed JSON value (`undefined`,
i.e. `none`, when absent or not an object). -/
def Json.lookup : Json → String → Option Json
  | .obj fields, key => lookupField fields key
  | _, _ => none

/-- JavaScript truthiness of a JSON value: `null`, `false`, `0` and
the empty string are falsy; arrays and objects are truthy. -/
def jsTruthy : Json → Bool
  | .null => false
  | .bool b => b
  | .num n => n != 0
  | .str s => s != ""
  | .arr _ => true
  | .obj _ => true

/-- JavaScript truthiness of a possibly-undefined field. -/
def jsTruthyOpt : Option Json → Bool
  | none => false
  | some v => jsTruthy v

/-- JSON serialization of a `CountryISO` value. -/
def countryJson : CountryISO → Json
  | .PE => Json.str "PE"
  | .CL => Json.str "CL"

/-- JSON shape of an `AppointmentCreatedEvent` (the serialization the
transport carries, fields as in section 3 of the design). -/
def jsonOfCreatedEvent (e : AppointmentCreatedEvent) : Json :=
  Json.obj
    [("appointmentId", Json.str e.appointmentId),
     ("insuredId", Json.str e.insuredId),
     ("scheduleId", Json.num (Int.ofNat e.scheduleId)),
     ("countryISO", countryJson e.countryISO),
     ("createdAt", Json.str e.createdAt)]

/-- Raw event extracted by the queue-message parser: the handler reads
the five fields off the parsed object without type checks, so each may
be any JSON value or absent (`undefined`). -/
structure ParsedCreatedEvent where
  appointmentId : Option Json
  insuredId : Option Json
  scheduleId : Option Json
  countryISO : Option Json
  createdAt : Option Json

/-- `parseAppointmentEvent` of the country queue handlers
(`appointment-pe.handler.ts` and `appointment-cl.handler.ts`, lines
121-153), given the `JSON.parse`d message body: when the body has a
truthy `Message` field (the SNS envelope, whose `Message` is a string
holding the JSON serialization of the inner payload), `JSON.parse` of
that string is modelled by the field holding the inner `Json` value
itself (stringify-then-parse is the identity, and the stringification
of any value is a nonempty, hence truthy, string); then
`const data = eventData.data || eventData` unwraps a truthy `data`
field, and the five event fields are read off `data`. -/
def parseAppointmentEvent (body : Json) : ParsedCreatedEvent :=
  let eventData :=
    match body.lookup "Message" with
    | some m => if jsTruthy m then m else body
    | none => body
  let data :=
    match eventData.lookup "data" with
    | some d => if jsTruthy d then d else eventData
    | none => eventData
  { appointmentId := data.lookup "appointmentId",
    insuredId := data.lookup "insuredId",
    scheduleId := data.lookup "scheduleId",
    countryISO := data.lookup "countryISO",
    createdAt := data.lookup "createdAt" }

/-!
## Theorems
-/

/-- C2: the status-transition check is total over all pairs of
statuses (it is a total function) and accepts exactly the pairs
PENDING→PROCESSING, PENDING→FAILED, PROCESSING→COMPLETED,
PROCESSING→FAILED; every other pair — in particular
COMPLETED→PROCESSING — is rejected with a validation error. -/
theorem C2_status_transition_table_exact (cur new : AppointmentStatus) :
    (validateStatusTransition cur new = Except.ok () ↔
      (cur, new) ∈
        ([(AppointmentStatus.pending, AppointmentStatus.processing),
          (AppointmentStatus.pending, AppointmentStatus.failed),
          (AppointmentStatus.processing, AppointmentStatus.completed),
          (AppointmentStatus.processing, AppointmentStatus.failed)] :
          List (AppointmentStatus × AppointmentStatus))) ∧
    validateStatusTransition AppointmentStatus.completed
        AppointmentStatus.processing =
      Except.error (AppErr.validation
        "Transicion de estado invalida: completed -> processing") := by
  refine ⟨?_, by decide⟩
  cases cur <;> cases new <;> decide

/-- C3: `updateAppointmentStatus` fails with NotFound when no
appointment with the id exists, fails with a validation error when the
requested transition is outside the table, and in both cases the
Primary Store is returned unchanged (no write happens before the
throw). -/
theorem C3_update_failures_leave_store_unchanged (store : PrimaryStore)
    (appointmentId : String) (newStatus : AppointmentStatus) (now : String) :
    (findById store appointmentId = none →
      updateAppointmentStatus store appointmentId newStatus now =
        (Except.error (AppErr.notFound
          ("Cita con ID " ++ appointmentId ++ " no encontrada")), store)) ∧
    (∀ apt, findById store appointmentId = some apt →
      newStatus ∉ validTransitions apt.status →
      updateAppointmentStatus store appointmentId newStatus now =
        (Except.error (AppErr.validation
          ("Transicion de estado invalida: " ++ statusName apt.status
            ++ " -> " ++ statusName newStatus)), store)) := by
  constructor
  · intro h
    unfold updateAppointmentStatus
    rw [h]
  · intro apt h1 h2
    simp only [updateAppointmentStatus, h1, validateStatusTransition, if_neg h2]

/-- Witness for C3: a store holding one COMPLETED appointment; an
unknown id fails with NotFound, and COMPLETED→PROCESSING on the known
id fails with a validation error; the store is unchanged both times. -/
theorem C3_update_failures_leave_store_unchanged_witness :
    (updateAppointmentStatus [] "a1" AppointmentStatus.processing "T" =
      (Except.error (AppErr.notFound "Cita con ID a1 no encontrada"), [])) ∧
    (updateAppointmentStatus
        [{ id := "a1", insuredId := "00123", scheduleId := 100,
           countryISO := CountryISO.PE,
           status := AppointmentStatus.completed,
           createdAt := "T", updatedAt := "T" }]
        "a1" AppointmentStatus.processing "T" =
      (Except.error (AppErr.validation
        "Transicion de estado invalida: completed -> processing"),
        [{ id := "a1", insuredId := "00123", scheduleId := 100,
           countryISO := CountryISO.PE,
           status := AppointmentStatus.completed,
           createdAt := "T", updatedAt := "T" }])) :=
  ⟨(C3_update_failures_leave_store_unchanged [] "a1"
      AppointmentStatus.processing "T").1 rfl,
   (C3_update_failures_leave_store_unchanged
      [{ id := "a1", insuredId := "00123", scheduleId := 100,
         countryISO := CountryISO.PE,
         status := AppointmentStatus.completed,
         createdAt := "T", updatedAt := "T" }]
      "a1" AppointmentStatus.processing "T").2
      { id := "a1", insuredId := "00123", scheduleId := 100,
        countryISO := CountryISO.PE,
        status := AppointmentStatus.completed,
        createdAt := "T", updatedAt := "T" }
      rfl (by decide)⟩

/-- C4 (code-bug exhibit): the conflict check scans with `Limit: 1`,
which DynamoDB applies before the `FilterExpression`, and the code
does not paginate, so only the first item of the table is ever
evaluated. Here a PENDING appointment for schedule 100 sits behind a
non-matching first item: the check reports no conflict and the valid
create request for schedule 100 succeeds, inserting a duplicate
booking — not the Conflict error (with no insert) the claim requires. -/
theorem C4_limit_one_scan_misses_conflict :
    ({ id := "apt-1", insuredId := "00555", scheduleId := 100,
       countryISO := CountryISO.PE, status := AppointmentStatus.pending,
       createdAt := "T", updatedAt := "T" } : Appointment) ∈
      ([{ id := "apt-0", insuredId := "00999", scheduleId := 200,
          countryISO := CountryISO.CL, status := AppointmentStatus.completed,
          createdAt := "T", updatedAt := "T" },
        { id := "apt-1", insuredId := "00555", scheduleId := 100,
          countryISO := CountryISO.PE, status := AppointmentStatus.pending,
          createdAt := "T", updatedAt := "T" }] : PrimaryStore) ∧
    hasConflictingAppointment
      [{ id := "apt-0", insuredId := "00999", scheduleId := 200,
         countryISO := CountryISO.CL, status := AppointmentStatus.completed,
         createdAt := "T", updatedAt := "T" },
       { id := "apt-1", insuredId := "00555", scheduleId := 100,
         countryISO := CountryISO.PE, status := AppointmentStatus.pending,
         createdAt := "T", updatedAt := "T" }] 100 false = false ∧
    createAppointment
      [{ id := "apt-0", insuredId := "00999", scheduleId := 200,
         countryISO := CountryISO.CL, status := AppointmentStatus.completed,
         createdAt := "T", updatedAt := "T" },
       { id := "apt-1", insuredId := "00555", scheduleId := 100,
         countryISO := CountryISO.PE, status := AppointmentStatus.pending,
         createdAt := "T", updatedAt := "T" }]
      { insuredId := "00123", scheduleId := 100,
        countryISO := CountryISO.PE }
      "apt-2" "T2" false false false =
      ({ success := true, message := "El agendamiento esta en proceso",
         data := some { appointmentId := "apt-2",
                        status := AppointmentStatus.pending },
         error := none },
        [{ id := "apt-0", insuredId := "00999", scheduleId := 200,
           countryISO := CountryISO.CL, status := AppointmentStatus.completed,
           createdAt := "T", updatedAt := "T" },
         { id := "apt-1", insuredId := "00555", scheduleId := 100,
           countryISO := CountryISO.PE, status := AppointmentStatus.pending,
           createdAt := "T", updatedAt := "T" },
         { id := "apt-2", insuredId := "00123", scheduleId := 100,
           countryISO := CountryISO.PE, status := AppointmentStatus.pending,
           createdAt := "T2", updatedAt := "T2" }],
        [{ appointmentId := "apt-2", insuredId := "00123", scheduleId := 100,
           countryISO := CountryISO.PE, createdAt := "T2" }]) := by
  refine ⟨by decide, by decide, by decide⟩

/-- C5 (code-bug exhibit): the create route computes
`statusCode = result.success ? 201 : 400`, so a duplicate-schedule
conflict and a Primary Store write failure both answer 400 — not the
409 and 500 the claim (and the repository's OpenAPI document) state;
only the success→201 and validation→400 parts hold. -/
theorem C5_create_route_maps_all_failures_to_400 :
    (handleCreateAppointment
        [{ id := "apt-0", insuredId := "00999", scheduleId := 100,
           countryISO := CountryISO.PE, status := AppointmentStatus.pending,
           createdAt := "T", updatedAt := "T" }]
        { insuredId := "00123", scheduleId := 100,
          countryISO := CountryISO.PE }
        "apt-1" "T0" false false false).1.statusCode = 400 ∧
    (handleCreateAppointment
        [{ id := "apt-0", insuredId := "00999", scheduleId := 100,
           countryISO := CountryISO.PE, status := AppointmentStatus.pending,
           createdAt := "T", updatedAt := "T" }]
        { insuredId := "00123", scheduleId := 100,
          countryISO := CountryISO.PE }
        "apt-1" "T0" false false false).1.body.message =
      "Conflicto en la solicitud" ∧
    (handleCreateAppointment []
        { insuredId := "00123", scheduleId := 100,
          countryISO := CountryISO.PE }
        "apt-1" "T0" false true false).1.statusCode = 400 ∧
    (handleCreateAppointment []
        { insuredId := "00123", scheduleId := 100,
          countryISO := CountryISO.PE }
        "apt-1" "T0" false true false).1.body.message =
      "Error en el procesamiento" ∧
    (handleCreateAppointment []
        { insuredId := "00123", scheduleId := 100,
          countryISO := CountryISO.PE }
        "apt-1" "T0" false false false).1.statusCode = 201 ∧
    (handleCreateAppointment []
        { insuredId := "123", scheduleId := 100,
          countryISO := CountryISO.PE }
        "apt-1" "T0" false false false).1.statusCode = 400 := by
  decide

/-- C6: in a processor run on a valid event, the RegionalRecord is
inserted with status PROCESSING and the ConfirmedEvent (status
COMPLETED) is emitted only on the success path after the insert; when
the RDS insert fails, the run errors, the Regional Store is unchanged
and no ConfirmedEvent is emitted. -/
theorem C6_confirmation_only_after_insert (country : CountryISO)
    (rstore : RegionalStore) (event : AppointmentCreatedEvent)
    (freshId now : String)
    (hvalid : validateEvent country event = Except.ok ()) :
    processAppointment country rstore event freshId now true =
      (Except.error (AppErr.appointment
        "Error al crear la cita en RDS" "CREATE_RDS_ERROR"), rstore, []) ∧
    processAppointment country rstore event freshId now false =
      (Except.ok (), rstore ++ [rdsEntityOf event freshId now],
        [confirmationEventOf country event now]) ∧
    (rdsEntityOf event freshId now).status = AppointmentStatus.processing ∧
    (confirmationEventOf country event now).status =
      AppointmentStatus.completed := by
  refine ⟨?_, ?_, rfl, rfl⟩ <;> simp only [processAppointment, hvalid] <;> rfl

/-- Witness for C6: a concrete valid PE event; with the insert failing
the run errors with no confirmation and an unchanged store. -/
theorem C6_confirmation_only_after_insert_witness :
    validateEvent CountryISO.PE
        { appointmentId := "apt-1", insuredId := "00123", scheduleId := 100,
          countryISO := CountryISO.PE, createdAt := "T0" } = Except.ok () ∧
    processAppointment CountryISO.PE []
        { appointmentId := "apt-1", insuredId := "00123", scheduleId := 100,
          countryISO := CountryISO.PE, createdAt := "T0" }
        "rds-1" "T1" true =
      (Except.error (AppErr.appointment
        "Error al crear la cita en RDS" "CREATE_RDS_ERROR"), [], []) :=
  ⟨by decide,
   (C6_confirmation_only_after_insert CountryISO.PE []
      { appointmentId := "apt-1", insuredId := "00123", scheduleId := 100,
        countryISO := CountryISO.PE, createdAt := "T0" }
      "rds-1" "T1" (by decide)).1⟩

/-- C7: when the duplicate-booking conflict query itself fails, the
check reports no conflict (fail-open), and the whole create call
behaves exactly as the pipeline run with the conflict check reporting
no conflict — for every store, request and later fault behaviour. -/
theorem C7_conflict_query_failure_fails_open (store : PrimaryStore)
    (req : AppointmentRequest) (freshId now : String)
    (putFails publishFails : Bool) :
    hasConflictingAppointment store req.scheduleId true = false ∧
    createAppointment store req freshId now true putFails publishFails =
      createAppointmentCore store req freshId now false putFails publishFails :=
  ⟨rfl, rfl⟩

/-- C8: the country queue parser yields the same parsed event for the
bare JSON serialization of a CreatedEvent and for that serialization
wrapped in one level of the SNS envelope (an object whose `Message`
holds the serialization). -/
theorem C8_parser_tolerates_sns_envelope (e : AppointmentCreatedEvent) :
    parseAppointmentEvent (jsonOfCreatedEvent e) =
      parseAppointmentEvent (Json.obj [("Message", jsonOfCreatedEvent e)]) :=
  rfl

/-- C9: the Reconciler ignores the status carried by the
ConfirmedEvent: two events differing only in their status field cause
the same Primary Store update, and that update always attempts status
COMPLETED. -/
theorem C9_reconciler_ignores_event_status (store : PrimaryStore)
    (e : AppointmentConfirmedEvent) (s1 s2 : AppointmentStatus)
    (now : String) :
    handleConfirmationRecord store { e with status := s1 } now =
      handleConfirmationRecord store { e with status := s2 } now ∧
    handleConfirmationRecord store e now =
      updateAppointmentStatus store e.appointmentId
        AppointmentStatus.completed now :=
  ⟨rfl, rfl⟩

/-- C10: for every positive scheduleId the derivation returns
`centerId = scheduleId / 1000` (1 when that is 0),
`specialtyId = scheduleId % 1000 / 100` (1 when 0),
`medicId = scheduleId % 100 / 10` (1 when 0), and all three are at
least 1. -/
theorem C10_schedule_metadata_derivation (scheduleId : Nat) (now : String)
    (h : 1 ≤ scheduleId) :
    (getScheduleInformation scheduleId now).centerId =
      (if scheduleId / 1000 = 0 then 1 else scheduleId / 1000) ∧
    (getScheduleInformation scheduleId now).specialtyId =
      (if scheduleId % 1000 / 100 = 0 then 1 else scheduleId % 1000 / 100) ∧
    (getScheduleInformation scheduleId now).medicId =
      (if scheduleId % 100 / 10 = 0 then 1 else scheduleId % 100 / 10) ∧
    1 ≤ (getScheduleInformation scheduleId now).centerId ∧
    1 ≤ (getScheduleInformation scheduleId now).specialtyId ∧
    1 ≤ (getScheduleInformation scheduleId now).medicId := by
  unfold getScheduleInformation
  refine ⟨rfl, rfl, rfl, ?_, ?_, ?_⟩ <;> dsimp only <;> split <;> omega

/-- Witness for C10 at scheduleId 100. -/
theorem C10_schedule_metadata_derivation_witness :
    1 ≤ 100 ∧
    (1 ≤ (getScheduleInformation 100 "T").centerId ∧
      1 ≤ (getScheduleInformation 100 "T").specialtyId ∧
      1 ≤ (getScheduleInformation 100 "T").medicId) :=
  ⟨by decide, (C10_schedule_metadata_derivation 100 "T" (by decide)).2.2.2⟩

/-- C1 (code-bug exhibit): the fault-free pipeline for
`{insuredId:"00123", scheduleId:100, countryISO:"PE"}` on empty
stores. Intake inserts exactly one PENDING appointment and emits the
CreatedEvent; the PE run inserts exactly one RegionalRecord with
scheduleId 100 and emits the ConfirmedEvent; but the Reconciler's
PENDING→COMPLETED update is rejected by the transition table (nothing
in the pipeline ever sets the primary record to PROCESSING), so the
appointment stays PENDING — never COMPLETED as the claim states. -/
theorem C1_fault_free_pipeline_never_completes :
    createAppointment []
        { insuredId := "00123", scheduleId := 100,
          countryISO := CountryISO.PE }
        "apt-1" "T0" false false false =
      ({ success := true, message := "El agendamiento esta en proceso",
         data := some { appointmentId := "apt-1",
                        status := AppointmentStatus.pending },
         error := none },
        [{ id := "apt-1", insuredId := "00123", scheduleId := 100,
           countryISO := CountryISO.PE, status := AppointmentStatus.pending,
           createdAt := "T0", updatedAt := "T0" }],
        [{ appointmentId := "apt-1", insuredId := "00123", scheduleId := 100,
           countryISO := CountryISO.PE, createdAt := "T0" }]) ∧
    runPEHandlerRecord []
        { appointmentId := "apt-1", insuredId := "00123", scheduleId := 100,
          countryISO := CountryISO.PE, createdAt := "T0" }
        "rds-1" "T1" false =
      (Except.ok (),
        [{ id := "rds-1", insured_id := "00123", schedule_id := 100,
           center_id := 1, specialty_id := 1, medic_id := 1,
           appointment_date := "T1", status := AppointmentStatus.processing,
           created_at := "T1", updated_at := "T1" }],
        [{ appointmentId := "apt-1", countryISO := CountryISO.PE,
           status := AppointmentStatus.completed, confirmedAt := "T1" }]) ∧
    handleConfirmationRecord
        [{ id := "apt-1", insuredId := "00123", scheduleId := 100,
           countryISO := CountryISO.PE, status := AppointmentStatus.pending,
           createdAt := "T0", updatedAt := "T0" }]
        { appointmentId := "apt-1", countryISO := CountryISO.PE,
          status := AppointmentStatus.completed, confirmedAt := "T1" }
        "T2" =
      (Except.error (AppErr.validation
        "Transicion de estado invalida: pending -> completed"),
        [{ id := "apt-1", insuredId := "00123", scheduleId := 100,
           countryISO := CountryISO.PE, status := AppointmentStatus.pending,
           createdAt := "T0", updatedAt := "T0" }]) := by
  refine ⟨?_, ?_, ?_⟩ <;> decide

end Rimac
